import Mathlib

/-!
Shallow embedding of the OAuth2 identity-verification adapter layer of
hensur/oauth2_proxy: the Slack provider (`providers/slack.go`, plus the older
scope-tracking variant of `SecondAttempt` found in the second copy of the
file) and the Spaces provider (`spaces.go`).

Network I/O is modelled by an oracle: each upstream endpoint's behaviour for
the session's access token is a fixed `HttpResult` value, and `getEndpoint`
classifies it exactly as the Go code does (transport failure, non-200 status,
JSON decode failure, success).  Console/log output relevant to the claims is
modelled as an explicit list of printed strings.  Methods on the provider that
could mutate the receiver are embedded as state-passing functions returning
the resulting provider value.
-/

namespace OAuth2Proxy

/-- `SessionState`: the part of the proxy session the providers read
(`s.AccessToken`). -/
structure SessionState where
  accessToken : String
deriving DecidableEq, Repr

/-- Outcome of one raw HTTP GET issued by `getEndpoint`, as seen by the code:
either the transport fails (`http.DefaultClient.Do` or body read returns an
error), or a response arrives with a status code, a raw body, the decode
result of `json.Unmarshal` into the expected shape (`none` = malformed JSON),
and the value of the `X-Oauth-Scopes` response header. -/
inductive HttpResult (α : Type) where
  | transportFailure : HttpResult α
  | response (status : Nat) (body : String) (decoded : Option α)
      (scopesHeader : String) : HttpResult α
deriving DecidableEq, Repr

/-- Error classification produced by `getEndpoint` and the resolvers:
transport failure, non-200 status (with status and raw body, from
`fmt.Errorf("got %d from %q %s", ...)`), JSON decode failure, and the
resolvers' "slack response is not ok" rejection. -/
inductive EndpointError where
  | transport : EndpointError
  | status (code : Nat) (body : String) : EndpointError
  | decode : EndpointError
  | providerRejected : EndpointError
deriving DecidableEq, Repr

/-- `SlackProvider.getEndpoint` (slack.go lines 96-130): classify the HTTP
outcome; on success return the decoded value together with the response
headers (only the `X-Oauth-Scopes` header is ever read).  Errors are checked
in the code's order: transport, then status ≠ 200, then decode. -/
def getEndpoint {α : Type} (r : HttpResult α) : Except EndpointError (α × String) :=
  match r with
  | .transportFailure => .error .transport
  | .response status body decoded scopesHeader =>
      if status ≠ 200 then .error (.status status body)
      else
        match decoded with
        | none => .error .decode
        | some v => .ok (v, scopesHeader)

/-- `SlackUserItem`: `{ID, Name, Email}`. -/
structure SlackUserItem where
  id : String
  name : String
  email : String
deriving DecidableEq, Repr

/-- `SlackUserIdentityResponse`: `{OK, User, Team}` from `users.identity`. -/
structure SlackUserIdentityResponse where
  ok : Bool
  user : SlackUserItem
  team : SlackUserItem
deriving DecidableEq, Repr

/-- `SlackGroupItem`: `{ID, Name}`. -/
structure SlackGroupItem where
  id : String
  name : String
deriving DecidableEq, Repr

/-- `SlackGroupListResponse`: `{OK, Groups}` from `groups.list`. -/
structure SlackGroupListResponse where
  ok : Bool
  groups : List SlackGroupItem
deriving DecidableEq, Repr

/-- `SlackAuthTestResponse`: `{OK}` from `auth.test` (decoded but unused). -/
structure SlackAuthTestResponse where
  ok : Bool
deriving DecidableEq, Repr

/-- `SlackProvider`: the provider-level configuration the verification code
reads — `TeamID`, `GroupID` and the embedded `ProviderData.Scope`. -/
structure SlackProvider where
  teamID : String
  groupID : String
  scope : String
deriving DecidableEq, Repr

/-- `SlackProvider.getIdentity` (slack.go lines 132-142): call the
`users.identity` endpoint; propagate any endpoint error; on a decoded
response require `OK == true`, otherwise fail with
`"slack response is not ok"`. -/
def getIdentity (fetched : HttpResult SlackUserIdentityResponse) :
    Except EndpointError SlackUserIdentityResponse :=
  match getEndpoint fetched with
  | .error e => .error e
  | .ok (userIdentity, _) =>
      if userIdentity.ok then .ok userIdentity
      else .error .providerRejected

/-- `SlackProvider.getGroups` (slack.go lines 144-157): call the
`groups.list` endpoint (with `exclude_archived`/`exclude_members` flags);
propagate any endpoint error; require `OK == true`. -/
def getGroups (fetched : HttpResult SlackGroupListResponse) :
    Except EndpointError SlackGroupListResponse :=
  match getEndpoint fetched with
  | .error e => .error e
  | .ok (groupList, _) =>
      if groupList.ok then .ok groupList
      else .error .providerRejected

/-- `SlackProvider.hasTeamID` (slack.go lines 159-161):
`resp.Team.ID == p.TeamID`. -/
def hasTeamID (p : SlackProvider) (resp : SlackUserIdentityResponse) : Bool :=
  resp.team.id == p.teamID

/-- `SlackProvider.hasGroupID` (slack.go lines 163-170): linear scan of the
group list for an entry whose `ID` equals `p.GroupID`. -/
def hasGroupID (p : SlackProvider) (resp : SlackGroupListResponse) : Bool :=
  resp.groups.any (fun group => group.id == p.groupID)

/-- Which upstream endpoints a run of `GetEmailAddress` called, in order. -/
inductive EndpointCall where
  | usersIdentity
  | groupsList
deriving DecidableEq, Repr

/-- The upstream world for one Slack session: the response each endpoint
would give to this session's access token. -/
structure SlackUpstream where
  identity : HttpResult SlackUserIdentityResponse
  groups : HttpResult SlackGroupListResponse
deriving DecidableEq, Repr

/-- The Go `(string, error)` result of `SlackProvider.GetEmailAddress`.
`goError = none` is a nil error; the two non-nil errors the function can
produce are the team and group mismatch denials. -/
inductive SlackDenial where
  | teamMismatch
  | groupMismatch
deriving DecidableEq, Repr

/-- Result of one run of `SlackProvider.GetEmailAddress`: the returned
`(string, error)` pair, the endpoint calls it issued, and the provider state
after the call (the method body never assigns to the receiver's fields). -/
structure SlackEmailResult where
  email : String
  goError : Option SlackDenial
  calls : List EndpointCall
  provider : SlackProvider
deriving DecidableEq, Repr

/-- `SlackProvider.GetEmailAddress` (slack.go lines 172-202): resolve
identity, returning `("", nil)` on any identity-resolution error; if `TeamID`
is configured and `hasTeamID` fails, deny with "team id doesn't match"; if
`GroupID` is configured, fetch groups, returning `("", nil)` on any fetch
error, and deny with "group id doesn't match" when `hasGroupID` fails;
finally return the resolved email if non-empty, else `("", nil)`. -/
def GetEmailAddress (p : SlackProvider) (_s : SessionState) (up : SlackUpstream) :
    SlackEmailResult :=
  match getIdentity up.identity with
  | .error _ => ⟨"", none, [.usersIdentity], p⟩
  | .ok userIdentity =>
      if p.teamID != "" && !(hasTeamID p userIdentity) then
        ⟨"", some .teamMismatch, [.usersIdentity], p⟩
      else if p.groupID != "" then
        match getGroups up.groups with
        | .error _ => ⟨"", none, [.usersIdentity, .groupsList], p⟩
        | .ok groupList =>
            if !(hasGroupID p groupList) then
              ⟨"", some .groupMismatch, [.usersIdentity, .groupsList], p⟩
            else if userIdentity.user.email != "" then
              ⟨userIdentity.user.email, none, [.usersIdentity, .groupsList], p⟩
            else
              ⟨"", none, [.usersIdentity, .groupsList], p⟩
      else if userIdentity.user.email != "" then
        ⟨userIdentity.user.email, none, [.usersIdentity], p⟩
      else
        ⟨"", none, [.usersIdentity], p⟩

/-- `b` is a prefix of the second list (char-by-char comparison), as a
computable Bool. -/
def listIsPrefixOf : List Char → List Char → Bool
  | [], _ => true
  | _ :: _, [] => false
  | a :: as, b :: bs => a == b && listIsPrefixOf as bs

/-- `sub` occurs as a contiguous sublist of `s`. -/
def listIsInfixOf (sub : List Char) : List Char → Bool
  | [] => sub.isEmpty
  | c :: rest => listIsPrefixOf sub (c :: rest) || listIsInfixOf sub rest

/-- Go's `strings.Contains(s, sub)`: `sub` occurs as a substring of `s`
(always true for the empty substring). -/
def goStringsContains (s sub : String) : Bool :=
  listIsInfixOf sub.data s.data

/-- `SlackProvider.SecondAttempt`, scope-tracking variant (the older copy of
slack.go, lines 200-207): return false when the configured `Scope` already
contains `"groups:read"` or no `GroupID` is configured; otherwise set the
provider's `Scope` to `"groups:read"` and return true.  Embedded as a
state-passing function since the method assigns to `p.Scope`. -/
def SecondAttemptScopeTracking (p : SlackProvider) : Bool × SlackProvider :=
  if goStringsContains p.scope "groups:read" || p.groupID == "" then
    (false, p)
  else
    (true, { p with scope := "groups:read" })

/-- `SlackProvider.SecondAttempt`, header-probing variant (slack.go lines
206-215): call the `auth.test` endpoint; on any endpoint error return false;
otherwise return false when the `X-Oauth-Scopes` response header contains
`"groups"` or no `GroupID` is configured, and true otherwise.  The method
mutates nothing; `probe` is the `auth.test` call's outcome for the session's
token. -/
def SecondAttempt (p : SlackProvider) (probe : HttpResult SlackAuthTestResponse) :
    Bool :=
  match getEndpoint probe with
  | .error _ => false
  | .ok (_, scopesHeader) =>
      if goStringsContains scopesHeader "groups" || p.groupID == "" then false
      else true

/-- Console output of `SlackProvider.getEndpoint` (slack.go lines 96-130):
the function body contains no print or log statement, so nothing is written
regardless of the token or the outcome. -/
def slackEndpointConsole {α : Type} (_accessToken : String)
    (_r : HttpResult α) : List String :=
  []

/-- `SpacesProvider`: configuration read by the Spaces verification code
(`SpaceID`); `APIUser`/`APISpace` are fixed path templates. -/
structure SpacesProvider where
  spaceID : String
deriving DecidableEq, Repr

/-- `SpacesUserIdentityResponse`: `{ID, EMail}` from `users/me/profile`. -/
structure SpacesUserIdentityResponse where
  id : String
  email : String
deriving DecidableEq, Repr

/-- `SpacesSpaceResponse`: `{ID}` from `spaces/<id>`. -/
structure SpacesSpaceResponse where
  id : String
deriving DecidableEq, Repr

/-- `SpacesProvider.getEndpoint` (spaces.go lines 275-310): same outcome
classification as the Slack client (transport, then status ≠ 200, then
decode). -/
def spacesGetEndpoint {α : Type} (r : HttpResult α) :
    Except EndpointError α :=
  match r with
  | .transportFailure => .error .transport
  | .response status body decoded _ =>
      if status ≠ 200 then .error (.status status body)
      else
        match decoded with
        | none => .error .decode
        | some v => .ok v

/-- Console output of `SpacesProvider.getEndpoint` (spaces.go lines 275-310):
the body executes `fmt.Println(accessToken)` before issuing the request, and
`fmt.Println(resp)` once a response arrives (i.e. unless the transport
fails). -/
def spacesEndpointConsole {α : Type} (accessToken : String)
    (r : HttpResult α) : List String :=
  match r with
  | .transportFailure => [accessToken]
  | .response _ _ _ _ => [accessToken, "<http-response>"]

/-- The upstream world for one Spaces session: the response of the profile
endpoint and of the space endpoint for this session's access token. -/
structure SpacesUpstream where
  profile : HttpResult SpacesUserIdentityResponse
  space : HttpResult SpacesSpaceResponse
deriving DecidableEq, Repr

/-- Result of one run of `SpacesProvider.GetEmailAddress`: the returned
`(string, error)` pair — the error here is a propagated endpoint error — and
the provider state after the call (the body never assigns to the receiver). -/
structure SpacesEmailResult where
  email : String
  goError : Option EndpointError
  provider : SpacesProvider
deriving DecidableEq, Repr

/-- `SpacesProvider.GetEmailAddress` (spaces.go lines 312-326): fetch the
profile, propagating any endpoint error; if `SpaceID` is configured, fetch
the space record, propagating any endpoint error, but never inspect the
decoded record; return the profile's email with a nil error. -/
def SpacesGetEmailAddress (p : SpacesProvider) (_s : SessionState)
    (up : SpacesUpstream) : SpacesEmailResult :=
  match spacesGetEndpoint up.profile with
  | .error e => ⟨"", some e, p⟩
  | .ok userIdentity =>
      if p.spaceID != "" then
        match spacesGetEndpoint up.space with
        | .error e => ⟨"", some e, p⟩
        | .ok _spaceInformation => ⟨userIdentity.email, none, p⟩
      else ⟨userIdentity.email, none, p⟩

/-! Helper lemmas characterizing the embedded operations.  These are shared
infrastructure for the claim theorems below. -/

theorem hasTeamID_iff (p : SlackProvider) (r : SlackUserIdentityResponse) :
    hasTeamID p r = true ↔ r.team.id = p.teamID := by
  simp [hasTeamID]

theorem hasGroupID_iff (p : SlackProvider) (gl : SlackGroupListResponse) :
    hasGroupID p gl = true ↔ ∃ g ∈ gl.groups, g.id = p.groupID := by
  simp [hasGroupID]

theorem gea_identity_error (p : SlackProvider) (s : SessionState)
    (up : SlackUpstream) (e : EndpointError)
    (h : getIdentity up.identity = .error e) :
    GetEmailAddress p s up = ⟨"", none, [.usersIdentity], p⟩ := by
  unfold GetEmailAddress
  rw [h]

theorem gea_team_fail (p : SlackProvider) (s : SessionState)
    (up : SlackUpstream) (r : SlackUserIdentityResponse)
    (h : getIdentity up.identity = .ok r)
    (ht : p.teamID ≠ "") (hm : hasTeamID p r = false) :
    GetEmailAddress p s up = ⟨"", some .teamMismatch, [.usersIdentity], p⟩ := by
  unfold GetEmailAddress
  rw [h]
  have hc : (p.teamID != "" && !(hasTeamID p r)) = true := by
    simp [ht, hm]
  simp [hc]

theorem gea_group_error (p : SlackProvider) (s : SessionState)
    (up : SlackUpstream) (r : SlackUserIdentityResponse) (e : EndpointError)
    (h : getIdentity up.identity = .ok r)
    (ht : p.teamID = "" ∨ hasTeamID p r = true)
    (hg : p.groupID ≠ "")
    (he : getGroups up.groups = .error e) :
    GetEmailAddress p s up = ⟨"", none, [.usersIdentity, .groupsList], p⟩ := by
  unfold GetEmailAddress
  rw [h]
  have hc : (p.teamID != "" && !(hasTeamID p r)) = false := by
    rcases ht with ht | ht <;> simp [ht]
  simp only [hc, Bool.false_eq_true, if_false]
  have hgb : (p.groupID != "") = true := by simp [hg]
  simp only [hgb, if_true]
  rw [he]

theorem gea_teamMismatch_iff (p : SlackProvider) (s : SessionState)
    (up : SlackUpstream) (r : SlackUserIdentityResponse)
    (h : getIdentity up.identity = .ok r) :
    ((GetEmailAddress p s up).goError = some .teamMismatch ↔
      (p.teamID ≠ "" ∧ r.team.id ≠ p.teamID)) := by
  unfold GetEmailAddress
  rw [h]
  cases hc : (p.teamID != "" && !(hasTeamID p r)) with
  | true =>
      simp only [hc, if_true]
      simp only [Bool.and_eq_true, bne_iff_ne, Bool.not_eq_true'] at hc
      simp [hc, hasTeamID, beq_eq_false_iff_ne] at *
      exact hc
  | false =>
      simp only [hc, Bool.false_eq_true, if_false]
      simp only [Bool.and_eq_false_iff] at hc
      constructor
      · intro hgo
        exfalso
        rcases hg : getGroups up.groups with e | gl <;>
          simp [hg] at hgo <;> split_ifs at hgo <;> simp at hgo
      · intro hrhs
        exfalso
        rcases hc with hc | hc
        · simp [bne_eq_false_iff_eq] at hc
          exact hrhs.1 hc
        · simp [hasTeamID] at hc
          exact hrhs.2 hc

theorem gea_groupMismatch_iff (p : SlackProvider) (s : SessionState)
    (up : SlackUpstream) (r : SlackUserIdentityResponse)
    (gl : SlackGroupListResponse)
    (h : getIdentity up.identity = .ok r)
    (ht : p.teamID = "" ∨ hasTeamID p r = true)
    (hg : p.groupID ≠ "")
    (hok : getGroups up.groups = .ok gl) :
    ((GetEmailAddress p s up).goError = some .groupMismatch ↔
      ¬ ∃ g ∈ gl.groups, g.id = p.groupID) := by
  unfold GetEmailAddress
  rw [h]
  have hc : (p.teamID != "" && !(hasTeamID p r)) = false := by
    rcases ht with ht | ht <;> simp [ht]
  simp only [hc, Bool.false_eq_true, if_false]
  have hgb : (p.groupID != "") = true := by simp [hg]
  simp only [hgb, if_true]
  rw [hok]
  have hmem : hasGroupID p gl = true ↔ ∃ g ∈ gl.groups, g.id = p.groupID := by
    simp [hasGroupID]
  cases hm : hasGroupID p gl with
  | true =>
      simp only [hm, Bool.not_true, Bool.false_eq_true, if_false]
      simp only [hm, iff_true] at hmem
      split_ifs <;> simpa using hmem
  | false =>
      simp only [hm, Bool.not_false, if_true]
      simp only [hasGroupID] at hm
      simp only [true_iff, Option.some.injEq]
      simp only [not_exists, not_and]
      intro x hx hxe
      have hany : (gl.groups.any fun group => group.id == p.groupID) = true := by
        simp only [List.any_eq_true, beq_iff_eq]
        exact ⟨x, hx, hxe⟩
      rw [hm] at hany
      exact Bool.false_ne_true hany

theorem gea_provider_eq (p : SlackProvider) (s : SessionState)
    (up : SlackUpstream) : (GetEmailAddress p s up).provider = p := by
  unfold GetEmailAddress
  rcases h : getIdentity up.identity with e | r
  · rfl
  · dsimp only
    split_ifs <;>
      first
        | rfl
        | (rcases hg : getGroups up.groups with e | gl <;> dsimp only <;>
            split_ifs <;> rfl)

theorem gea_calls_shape (p : SlackProvider) (s : SessionState)
    (up : SlackUpstream) :
    (GetEmailAddress p s up).calls = [.usersIdentity] ∨
    (GetEmailAddress p s up).calls = [.usersIdentity, .groupsList] := by
  unfold GetEmailAddress
  rcases h : getIdentity up.identity with e | r
  · left; rfl
  · dsimp only
    rcases hg : getGroups up.groups with e | gl <;> split_ifs <;>
      first
        | (left; simp; done)
        | (right; simp; done)
        | (right; simp; split_ifs <;> simp)

theorem spaces_provider_eq (p : SpacesProvider) (s : SessionState)
    (up : SpacesUpstream) : (SpacesGetEmailAddress p s up).provider = p := by
  unfold SpacesGetEmailAddress
  rcases h : spacesGetEndpoint up.profile with e | u
  · rfl
  · dsimp only
    split_ifs
    · rcases hs : spacesGetEndpoint up.space with e | r <;> rfl
    · rfl

theorem spaces_profile_error (p : SpacesProvider) (s : SessionState)
    (up : SpacesUpstream) (e : EndpointError)
    (h : spacesGetEndpoint up.profile = .error e) :
    SpacesGetEmailAddress p s up = ⟨"", some e, p⟩ := by
  unfold SpacesGetEmailAddress
  rw [h]

theorem spaces_space_error (p : SpacesProvider) (s : SessionState)
    (up : SpacesUpstream) (u : SpacesUserIdentityResponse) (e : EndpointError)
    (h : spacesGetEndpoint up.profile = .ok u)
    (hs : p.spaceID ≠ "")
    (he : spacesGetEndpoint up.space = .error e) :
    SpacesGetEmailAddress p s up = ⟨"", some e, p⟩ := by
  unfold SpacesGetEmailAddress
  rw [h]
  have hb : (p.spaceID != "") = true := by simp [hs]
  simp only [hb, if_true]
  rw [he]

theorem spaces_success (p : SpacesProvider) (s : SessionState)
    (up : SpacesUpstream) (u : SpacesUserIdentityResponse)
    (r : SpacesSpaceResponse)
    (h : spacesGetEndpoint up.profile = .ok u)
    (hok : spacesGetEndpoint up.space = .ok r) :
    SpacesGetEmailAddress p s up = ⟨u.email, none, p⟩ := by
  unfold SpacesGetEmailAddress
  rw [h]
  split_ifs
  · rw [hok]
  · rfl

theorem groupsread_contains_self :
    goStringsContains "groups:read" "groups:read" = true := by decide

theorem sast_true_iff (p : SlackProvider) :
    (SecondAttemptScopeTracking p).1 = true ↔
      (p.groupID ≠ "" ∧ goStringsContains p.scope "groups:read" = false) := by
  unfold SecondAttemptScopeTracking
  cases hc : (goStringsContains p.scope "groups:read" || p.groupID == "") with
  | true =>
      simp only [hc, if_true]
      simp only [Bool.or_eq_true, beq_iff_eq] at hc
      constructor
      · intro hfalse; exact absurd hfalse (by simp)
      · rintro ⟨hg, hs⟩
        rcases hc with hc | hc
        · rw [hs] at hc; exact absurd hc (by simp)
        · exact absurd hc hg
  | false =>
      simp only [hc, Bool.false_eq_true, if_false]
      simp only [Bool.or_eq_false_iff, beq_eq_false_iff_ne] at hc
      simp [hc.1, hc.2]

theorem sast_second_false (p : SlackProvider) :
    (SecondAttemptScopeTracking (SecondAttemptScopeTracking p).2).1 = false := by
  unfold SecondAttemptScopeTracking
  cases hc : (goStringsContains p.scope "groups:read" || p.groupID == "") with
  | true => simp [hc]
  | false =>
      simp only [hc, Bool.false_eq_true, if_false]
      simp [groupsread_contains_self]

theorem sa_header_iff (p : SlackProvider) (body hdr : String)
    (a : SlackAuthTestResponse) :
    SecondAttempt p (.response 200 body (some a) hdr) = true ↔
      (p.groupID ≠ "" ∧ goStringsContains hdr "groups" = false) := by
  unfold SecondAttempt getEndpoint
  simp only [ne_eq, not_true_eq_false, reduceIte]
  cases hc : (goStringsContains hdr "groups" || p.groupID == "") with
  | true =>
      simp only [hc, if_true]
      simp only [Bool.or_eq_true, beq_iff_eq] at hc
      constructor
      · intro hfalse; exact absurd hfalse (by simp)
      · rintro ⟨hg, hs⟩
        rcases hc with hc | hc
        · rw [hs] at hc; exact absurd hc (by simp)
        · exact absurd hc hg
  | false =>
      simp only [hc, Bool.false_eq_true, if_false]
      simp only [Bool.or_eq_false_iff, beq_eq_false_iff_ne] at hc
      simp [hc.1, hc.2]

/-! Claim theorems. -/

/-- Claim C1, counterexample: the claim asserts that every identity-resolution
failure makes `GetEmailAddress` return `("", nil)` with the fetch error never
propagated, citing both providers' `GetEmailAddress`; but the Spaces
provider's `GetEmailAddress` propagates the endpoint error: with a transport
failure on the profile fetch it returns a non-nil error. -/
theorem C1_counterexample_spaces_propagates :
    (SpacesGetEmailAddress ⟨"S1"⟩ ⟨"tok"⟩
        ⟨.transportFailure, .transportFailure⟩).goError ≠ none := by
  decide

/-- Claim C1 (amended): for the Slack provider, every identity-resolution
failure (transport, non-200 status, decode failure, or envelope not ok)
yields `("", nil)`, and with a `GroupID` configured a group-fetch failure
after a passing team check also yields `("", nil)` — the fetch error is
swallowed; the Spaces provider instead propagates the endpoint error to the
caller, from both the profile fetch and the space fetch. -/
theorem C1_slack_swallows_spaces_propagates :
    (∀ (p : SlackProvider) (s : SessionState) (up : SlackUpstream)
        (e : EndpointError), getIdentity up.identity = .error e →
        GetEmailAddress p s up = ⟨"", none, [.usersIdentity], p⟩)
    ∧ (∀ (p : SlackProvider) (s : SessionState) (up : SlackUpstream)
        (r : SlackUserIdentityResponse) (e : EndpointError),
        getIdentity up.identity = .ok r →
        (p.teamID = "" ∨ hasTeamID p r = true) → p.groupID ≠ "" →
        getGroups up.groups = .error e →
        GetEmailAddress p s up = ⟨"", none, [.usersIdentity, .groupsList], p⟩)
    ∧ (∀ (p : SpacesProvider) (s : SessionState) (up : SpacesUpstream)
        (e : EndpointError), spacesGetEndpoint up.profile = .error e →
        SpacesGetEmailAddress p s up = ⟨"", some e, p⟩)
    ∧ (∀ (p : SpacesProvider) (s : SessionState) (up : SpacesUpstream)
        (u : SpacesUserIdentityResponse) (e : EndpointError),
        spacesGetEndpoint up.profile = .ok u → p.spaceID ≠ "" →
        spacesGetEndpoint up.space = .error e →
        SpacesGetEmailAddress p s up = ⟨"", some e, p⟩) :=
  ⟨gea_identity_error, gea_group_error, spaces_profile_error,
    spaces_space_error⟩

/-- Claim C1 witness: concrete instances of all four branches of the amended
claim — Slack swallows the transport error on identity and on the group
fetch, the Spaces provider propagates the transport error from the profile
fetch and from the space fetch. -/
theorem C1_slack_swallows_spaces_propagates_witness :
    GetEmailAddress ⟨"T1", "G1", "sc"⟩ ⟨"tok"⟩
        ⟨.transportFailure, .transportFailure⟩
      = ⟨"", none, [.usersIdentity], ⟨"T1", "G1", "sc"⟩⟩
    ∧ GetEmailAddress ⟨"", "G1", "sc"⟩ ⟨"tok"⟩
        ⟨.response 200 "b" (some ⟨true, ⟨"U", "u", "a@x.com"⟩, ⟨"T1", "t", ""⟩⟩) "",
          .transportFailure⟩
      = ⟨"", none, [.usersIdentity, .groupsList], ⟨"", "G1", "sc"⟩⟩
    ∧ SpacesGetEmailAddress ⟨"S1"⟩ ⟨"tok"⟩ ⟨.transportFailure, .transportFailure⟩
      = ⟨"", some .transport, ⟨"S1"⟩⟩
    ∧ SpacesGetEmailAddress ⟨"S1"⟩ ⟨"tok"⟩
        ⟨.response 200 "b" (some ⟨"U1", "a@x.com"⟩) "", .transportFailure⟩
      = ⟨"", some .transport, ⟨"S1"⟩⟩ :=
  ⟨C1_slack_swallows_spaces_propagates.1 _ _ _ EndpointError.transport rfl,
   C1_slack_swallows_spaces_propagates.2.1 _ _ _
     ⟨true, ⟨"U", "u", "a@x.com"⟩, ⟨"T1", "t", ""⟩⟩ EndpointError.transport
     rfl (Or.inl rfl) (by decide) rfl,
   C1_slack_swallows_spaces_propagates.2.2.1 _ _ _ EndpointError.transport rfl,
   C1_slack_swallows_spaces_propagates.2.2.2 _ _ _ ⟨"U1", "a@x.com"⟩
     EndpointError.transport rfl (by decide) rfl⟩

/-- Claim C2: the claim says the endpoint client never writes the access
token to any log or console output.  The Slack client indeed prints nothing,
but the Spaces client executes `fmt.Println(accessToken)` on every call (and
`fmt.Println(resp)` once a response arrives), so the token is written to
stdout — the code contradicts the spec's "never logged" requirement. -/
theorem C2_spaces_endpoint_prints_token :
    "secret-token" ∈ spacesEndpointConsole "secret-token"
        (HttpResult.response 200 "body"
          (some (⟨"U1", "a@x.com"⟩ : SpacesUserIdentityResponse)) "")
    ∧ "secret-token" ∈ spacesEndpointConsole "secret-token"
        (HttpResult.transportFailure : HttpResult SpacesUserIdentityResponse)
    ∧ slackEndpointConsole "secret-token"
        (HttpResult.response 200 "body"
          (some (⟨"U1", "a@x.com"⟩ : SpacesUserIdentityResponse)) "") = [] := by
  exact ⟨by decide, by decide, rfl⟩

/-- Claim C3: the team check passes iff the configured `TeamID` is empty or
equals the envelope's `team.id` under exact case-sensitive string equality:
`hasTeamID` is plain string equality, `GetEmailAddress` denies with a team
mismatch exactly when `TeamID` is non-empty and differs from `team.id`, and
two IDs differing only in case fail the check. -/
theorem C3_team_check_exact_match :
    (∀ (p : SlackProvider) (r : SlackUserIdentityResponse),
        hasTeamID p r = true ↔ r.team.id = p.teamID)
    ∧ (∀ (p : SlackProvider) (s : SessionState) (up : SlackUpstream)
          (r : SlackUserIdentityResponse),
        getIdentity up.identity = .ok r →
        ((GetEmailAddress p s up).goError = some SlackDenial.teamMismatch ↔
          ¬(p.teamID = "" ∨ r.team.id = p.teamID)))
    ∧ hasTeamID ⟨"T1", "", ""⟩ ⟨true, ⟨"", "", ""⟩, ⟨"t1", "", ""⟩⟩ = false := by
  refine ⟨hasTeamID_iff, ?_, by decide⟩
  intro p s up r h
  rw [gea_teamMismatch_iff p s up r h]
  simp [not_or]

/-- Claim C3 witness: with `TeamID = "T1"` and an identity envelope whose
team id is `"t1"` (same letters, different case), `GetEmailAddress` denies
with a team mismatch. -/
theorem C3_team_check_witness :
    (GetEmailAddress ⟨"T1", "", ""⟩ ⟨"tok"⟩
        ⟨.response 200 "b" (some ⟨true, ⟨"U", "u", "a@x.com"⟩, ⟨"t1", "t", ""⟩⟩) "",
          .transportFailure⟩).goError = some SlackDenial.teamMismatch :=
  (C3_team_check_exact_match.2.1 ⟨"T1", "", ""⟩ ⟨"tok"⟩
      ⟨.response 200 "b" (some ⟨true, ⟨"U", "u", "a@x.com"⟩, ⟨"t1", "t", ""⟩⟩) "",
        .transportFailure⟩
      ⟨true, ⟨"U", "u", "a@x.com"⟩, ⟨"t1", "t", ""⟩⟩ rfl).mpr (by decide)

/-- Claim C4: the group check passes iff the configured `GroupID` is empty or
some entry of the fetched group list has that id: `hasGroupID` is list
membership on the `id` field, non-empty `GroupID` against an empty list
always fails, and `GetEmailAddress` denies with a group mismatch exactly when
no entry matches. -/
theorem C4_group_check_membership :
    (∀ (p : SlackProvider) (gl : SlackGroupListResponse),
        hasGroupID p gl = true ↔ ∃ g ∈ gl.groups, g.id = p.groupID)
    ∧ (∀ (p : SlackProvider) (gl : SlackGroupListResponse),
        (p.groupID = "" ∨ hasGroupID p gl = true) ↔
          (p.groupID = "" ∨ ∃ g ∈ gl.groups, g.id = p.groupID))
    ∧ (∀ (p : SlackProvider) (b : Bool), p.groupID ≠ "" →
        hasGroupID p ⟨b, []⟩ = false)
    ∧ (∀ (p : SlackProvider) (s : SessionState) (up : SlackUpstream)
          (r : SlackUserIdentityResponse) (gl : SlackGroupListResponse),
        getIdentity up.identity = .ok r →
        (p.teamID = "" ∨ hasTeamID p r = true) → p.groupID ≠ "" →
        getGroups up.groups = .ok gl →
        ((GetEmailAddress p s up).goError = some SlackDenial.groupMismatch ↔
          ¬ ∃ g ∈ gl.groups, g.id = p.groupID)) := by
  refine ⟨hasGroupID_iff, ?_, ?_, gea_groupMismatch_iff⟩
  · intro p gl
    rw [hasGroupID_iff]
  · intro p b _
    rfl

/-- Claim C4 witness: with `GroupID = "G9"` and a fetched group list
containing only `"G1"`, `GetEmailAddress` denies with a group mismatch; and
`hasGroupID` on the empty list is false. -/
theorem C4_group_check_witness :
    (GetEmailAddress ⟨"", "G9", ""⟩ ⟨"tok"⟩
        ⟨.response 200 "b" (some ⟨true, ⟨"U", "u", "a@x.com"⟩, ⟨"T1", "t", ""⟩⟩) "",
          .response 200 "b" (some ⟨true, [⟨"G1", "grp"⟩]⟩) ""⟩).goError
      = some SlackDenial.groupMismatch
    ∧ hasGroupID ⟨"", "G9", ""⟩ ⟨true, []⟩ = false :=
  ⟨(C4_group_check_membership.2.2.2 ⟨"", "G9", ""⟩ ⟨"tok"⟩
      ⟨.response 200 "b" (some ⟨true, ⟨"U", "u", "a@x.com"⟩, ⟨"T1", "t", ""⟩⟩) "",
        .response 200 "b" (some ⟨true, [⟨"G1", "grp"⟩]⟩) ""⟩
      ⟨true, ⟨"U", "u", "a@x.com"⟩, ⟨"T1", "t", ""⟩⟩ ⟨true, [⟨"G1", "grp"⟩]⟩
      rfl (Or.inl rfl) (by decide) rfl).mpr (by decide),
   C4_group_check_membership.2.2.1 ⟨"", "G9", ""⟩ true (by decide)⟩

/-- Claim C5: when `TeamID` is configured and the team check fails,
`GetEmailAddress` returns the team-mismatch denial having called only the
identity endpoint — the group-listing endpoint is never called; and in every
run the calls are either just `users.identity` or `users.identity` followed
by `groups.list` (team data is evaluated before any group fetch). -/
theorem C5_team_check_short_circuits_group_fetch :
    (∀ (p : SlackProvider) (s : SessionState) (up : SlackUpstream)
        (r : SlackUserIdentityResponse),
        getIdentity up.identity = .ok r → p.teamID ≠ "" →
        hasTeamID p r = false →
        GetEmailAddress p s up = ⟨"", some .teamMismatch, [.usersIdentity], p⟩ ∧
        EndpointCall.groupsList ∉ (GetEmailAddress p s up).calls)
    ∧ (∀ (p : SlackProvider) (s : SessionState) (up : SlackUpstream),
        (GetEmailAddress p s up).calls = [.usersIdentity] ∨
        (GetEmailAddress p s up).calls = [.usersIdentity, .groupsList]) := by
  refine ⟨?_, gea_calls_shape⟩
  intro p s up r h ht hm
  have heq := gea_team_fail p s up r h ht hm
  refine ⟨heq, ?_⟩
  rw [heq]
  simp

/-- Claim C5 witness: with `TeamID = "T2"` and an envelope reporting team
`"T1"`, together with a group constraint configured and a group endpoint that
would answer successfully, the run stops after the identity call with a
team-mismatch denial and never calls the group endpoint. -/
theorem C5_short_circuit_witness :
    GetEmailAddress ⟨"T2", "G1", ""⟩ ⟨"tok"⟩
        ⟨.response 200 "b" (some ⟨true, ⟨"U", "u", "a@x.com"⟩, ⟨"T1", "t", ""⟩⟩) "",
          .response 200 "b" (some ⟨true, [⟨"G1", "grp"⟩]⟩) ""⟩
      = ⟨"", some .teamMismatch, [.usersIdentity], ⟨"T2", "G1", ""⟩⟩
    ∧ EndpointCall.groupsList ∉
        (GetEmailAddress ⟨"T2", "G1", ""⟩ ⟨"tok"⟩
          ⟨.response 200 "b" (some ⟨true, ⟨"U", "u", "a@x.com"⟩, ⟨"T1", "t", ""⟩⟩) "",
            .response 200 "b" (some ⟨true, [⟨"G1", "grp"⟩]⟩) ""⟩).calls :=
  C5_team_check_short_circuits_group_fetch.1 ⟨"T2", "G1", ""⟩ ⟨"tok"⟩
    ⟨.response 200 "b" (some ⟨true, ⟨"U", "u", "a@x.com"⟩, ⟨"T1", "t", ""⟩⟩) "",
      .response 200 "b" (some ⟨true, [⟨"G1", "grp"⟩]⟩) ""⟩
    ⟨true, ⟨"U", "u", "a@x.com"⟩, ⟨"T1", "t", ""⟩⟩ rfl (by decide) (by decide)

/-- Claim C6: when the HTTP call succeeds with status 200 and the body
decodes, the resolvers treat the envelope's `ok` flag as authoritative: an
envelope with `ok = false` yields the provider-rejection error and no
envelope, and the parsed envelope is returned verbatim with no error iff
`ok = true` — for both `getIdentity` and `getGroups`. -/
theorem C6_envelope_ok_authoritative :
    ∀ (body hdr : String) (r : SlackUserIdentityResponse)
      (gl : SlackGroupListResponse),
      (getIdentity (.response 200 body (some r) hdr)
          = if r.ok then .ok r else .error .providerRejected)
      ∧ (getGroups (.response 200 body (some gl) hdr)
          = if gl.ok then .ok gl else .error .providerRejected)
      ∧ (getIdentity (.response 200 body (some r) hdr) = .ok r ↔ r.ok = true)
      ∧ (getGroups (.response 200 body (some gl) hdr) = .ok gl ↔ gl.ok = true) := by
  intro body hdr r gl
  refine ⟨?_, ?_, ?_, ?_⟩ <;>
    first
      | (cases hok : r.ok <;> simp [getIdentity, getEndpoint, hok])
      | (cases hok : gl.ok <;> simp [getGroups, getEndpoint, hok])

/-- Claim C7: the scope-escalation check reports "retry needed" iff a
`GroupID` constraint is configured and the scope does not yet include
`groups:read`; with the scope already containing it or `GroupID` empty it
reports false; and for the scope-tracking variant (whose escalation state is
the tracked scope string) an immediate second call after any first call
reports false — at most one escalation per login sequence.  For the
header-probing variant, a successful probe likewise reports true iff
`GroupID` is configured and the `X-Oauth-Scopes` header lacks `groups`. -/
theorem C7_scope_escalation_at_most_once :
    (∀ p : SlackProvider, (SecondAttemptScopeTracking p).1 = true ↔
        (p.groupID ≠ "" ∧ goStringsContains p.scope "groups:read" = false))
    ∧ (∀ p : SlackProvider,
        goStringsContains p.scope "groups:read" = true ∨ p.groupID = "" →
        (SecondAttemptScopeTracking p).1 = false)
    ∧ (∀ p : SlackProvider,
        (SecondAttemptScopeTracking (SecondAttemptScopeTracking p).2).1 = false)
    ∧ (∀ (p : SlackProvider) (body hdr : String) (a : SlackAuthTestResponse),
        SecondAttempt p (.response 200 body (some a) hdr) = true ↔
          (p.groupID ≠ "" ∧ goStringsContains hdr "groups" = false)) := by
  refine ⟨sast_true_iff, ?_, sast_second_false, sa_header_iff⟩
  intro p h
  cases hres : (SecondAttemptScopeTracking p).1
  · rfl
  · exfalso
    rcases (sast_true_iff p).mp hres with ⟨hg, hs⟩
    rcases h with h | h
    · rw [h] at hs
      exact Bool.false_ne_true hs.symm
    · exact hg h

/-- Claim C7 witness: with `GroupID = "G1"` and the default identity scope,
the first call of the scope-tracking check reports retry-needed and the
immediate second call reports no-retry; with the scope already
`"groups:read"` no retry is reported. -/
theorem C7_scope_escalation_witness :
    (SecondAttemptScopeTracking ⟨"", "G1", "identity.basic identity.email"⟩).1
      = true
    ∧ (SecondAttemptScopeTracking
        (SecondAttemptScopeTracking
          ⟨"", "G1", "identity.basic identity.email"⟩).2).1 = false
    ∧ (SecondAttemptScopeTracking ⟨"", "G1", "groups:read"⟩).1 = false :=
  ⟨(C7_scope_escalation_at_most_once.1
      ⟨"", "G1", "identity.basic identity.email"⟩).mpr
      ⟨by decide, by decide⟩,
   C7_scope_escalation_at_most_once.2.2.1
      ⟨"", "G1", "identity.basic identity.email"⟩,
   C7_scope_escalation_at_most_once.2.1 ⟨"", "G1", "groups:read"⟩
      (Or.inl (by decide))⟩

/-- Claim C8, counterexample: the claim says invoking the escalation check
leaves the provider-level configuration — in particular the `Scope` string —
unchanged; but the scope-tracking variant of `SecondAttempt` assigns
`p.Scope = "groups:read"` when it reports retry-needed, so the provider
value after the call differs from the one before. -/
theorem C8_counterexample_scope_mutated :
    (SecondAttemptScopeTracking
        ⟨"T1", "G1", "identity.basic identity.email"⟩).2
      ≠ ⟨"T1", "G1", "identity.basic identity.email"⟩ := by
  decide

/-- Claim C8 (amended): `SecondAttempt` leaves `TeamID` and `GroupID`
unchanged in every case, and when it reports no-retry it leaves the whole
provider unchanged; but the scope-tracking variant stores its escalation
flag in the provider-level `Scope` field, setting it to `"groups:read"`
whenever it reports retry-needed — provider-global rather than
request-scoped state.  (The header-probing variant of slack.go reads the
granted scopes from the upstream probe response and mutates nothing.) -/
theorem C8_second_attempt_state :
    (∀ p : SlackProvider,
        (SecondAttemptScopeTracking p).2.teamID = p.teamID ∧
        (SecondAttemptScopeTracking p).2.groupID = p.groupID)
    ∧ (∀ p : SlackProvider, (SecondAttemptScopeTracking p).1 = false →
        (SecondAttemptScopeTracking p).2 = p)
    ∧ (∀ p : SlackProvider, (SecondAttemptScopeTracking p).1 = true →
        (SecondAttemptScopeTracking p).2.scope = "groups:read") := by
  refine ⟨?_, ?_, ?_⟩ <;> intro p <;>
    unfold SecondAttemptScopeTracking <;>
    cases hc : (goStringsContains p.scope "groups:read" || p.groupID == "") <;>
    simp [hc]

/-- Claim C8 witness: concrete instances — a retry-needed call rewrites the
provider's scope to `"groups:read"` while keeping `TeamID`/`GroupID`, and a
no-retry call leaves the provider untouched. -/
theorem C8_second_attempt_state_witness :
    (SecondAttemptScopeTracking ⟨"T1", "G1", "identity.basic"⟩).2.scope
      = "groups:read"
    ∧ (SecondAttemptScopeTracking ⟨"T1", "G1", "identity.basic"⟩).2.teamID
      = "T1"
    ∧ (SecondAttemptScopeTracking ⟨"T1", "G1", "groups:read"⟩).2
      = ⟨"T1", "G1", "groups:read"⟩ :=
  ⟨C8_second_attempt_state.2.2 ⟨"T1", "G1", "identity.basic"⟩ (by decide),
   (C8_second_attempt_state.1 ⟨"T1", "G1", "identity.basic"⟩).1,
   C8_second_attempt_state.2.1 ⟨"T1", "G1", "groups:read"⟩ (by decide)⟩

/-- Claim C9: for the Spaces provider with a non-empty `SpaceID`,
`GetEmailAddress` returns the resolved email whenever the space endpoint call
returns 200 with a decodable body, for any space record whatsoever — the
record's id is never compared against the configured `SpaceID`, and the
result does not depend on the decoded space record at all. -/
theorem C9_space_id_never_compared :
    (∀ (p : SpacesProvider) (s : SessionState) (up : SpacesUpstream)
        (u : SpacesUserIdentityResponse) (r : SpacesSpaceResponse),
        spacesGetEndpoint up.profile = .ok u →
        spacesGetEndpoint up.space = .ok r →
        p.spaceID ≠ "" →
        SpacesGetEmailAddress p s up = ⟨u.email, none, p⟩)
    ∧ (∀ (p : SpacesProvider) (s : SessionState)
        (prof : HttpResult SpacesUserIdentityResponse) (body hdr : String)
        (r r' : SpacesSpaceResponse),
        SpacesGetEmailAddress p s ⟨prof, .response 200 body (some r) hdr⟩ =
          SpacesGetEmailAddress p s ⟨prof, .response 200 body (some r') hdr⟩) := by
  constructor
  · intro p s up u r h hok _
    exact spaces_success p s up u r h hok
  · intro p s prof body hdr r r'
    unfold SpacesGetEmailAddress
    rcases hp : spacesGetEndpoint prof with e | u <;> simp [hp, spacesGetEndpoint]

/-- Claim C9 witness: with `SpaceID = "S1"` configured and the space endpoint
returning a record describing a different space `"OTHER"`, the email is
returned with no error. -/
theorem C9_space_id_witness :
    SpacesGetEmailAddress ⟨"S1"⟩ ⟨"tok"⟩
        ⟨.response 200 "b" (some ⟨"U1", "a@x.com"⟩) "",
          .response 200 "b" (some ⟨"OTHER"⟩) ""⟩
      = ⟨"a@x.com", none, ⟨"S1"⟩⟩ :=
  C9_space_id_never_compared.1 ⟨"S1"⟩ ⟨"tok"⟩ _ ⟨"U1", "a@x.com"⟩ ⟨"OTHER"⟩
    rfl rfl (by decide)

/-- Claim C10: with the same session and a fixed set of upstream responses,
`GetEmailAddress` leaves the provider state unchanged, and a second call in
succession yields the same result as the first — for both the Slack and the
Spaces provider. -/
theorem C10_get_email_address_idempotent :
    (∀ (p : SlackProvider) (s : SessionState) (up : SlackUpstream),
        (GetEmailAddress p s up).provider = p ∧
        GetEmailAddress (GetEmailAddress p s up).provider s up
          = GetEmailAddress p s up)
    ∧ (∀ (p : SpacesProvider) (s : SessionState) (up : SpacesUpstream),
        (SpacesGetEmailAddress p s up).provider = p ∧
        SpacesGetEmailAddress (SpacesGetEmailAddress p s up).provider s up
          = SpacesGetEmailAddress p s up) := by
  constructor
  · intro p s up
    refine ⟨gea_provider_eq p s up, ?_⟩
    rw [gea_provider_eq]
  · intro p s up
    refine ⟨spaces_provider_eq p s up, ?_⟩
    rw [spaces_provider_eq]

end OAuth2Proxy
